import Mathlib

/-!
# PcgCamUtility: selection state machine and edge distances

A shallow embedding of `source/win32_pcg_cam.cpp`.  The process-wide globals of the
program become the fields of `State`; every answer of a Win32 query (cursor position,
monitor handle, monitor info) is carried by the message that triggers the query, so the
window procedure is a pure function `State → Msg → State`.

Machine arithmetic:
* `i32` / `LONG` subtraction is `wrapI32 (a - b)` (two's complement wrap-around);
* the `r32` globals `G_WorkAreaW`, `G_WorkAreaH` are only ever written by a conversion
  from an `i32`, hence always hold an integral value; the field stores that value and
  `castR32` performs the rounding of the conversion (24 bit significand, ties to even);
* `(i32)` applied to an `r32` is `castI32`.
-/

namespace PcgCam

/-! ## Data model -/

/-- Win32 `POINT`: a pair of `LONG` coordinates. -/
structure POINT where
  x : Int
  y : Int
deriving DecidableEq, Repr

/-- Win32 `RECT`; used for `MONITORINFO.rcWork`. -/
structure RECT where
  left : Int
  top : Int
  right : Int
  bottom : Int
deriving DecidableEq, Repr

/-- The arguments of one `SetWindowPos` call: position and size. -/
structure WindowPos where
  X : Int
  Y : Int
  cx : Int
  cy : Int
deriving DecidableEq, Repr

/-- The four `i32` locals `Left`, `Top`, `Right`, `Bottom` of the valid branch of
`WM_LBUTTONUP`, as handed to one `MessageBox` call. -/
structure ResultBox where
  Left : Int
  Top : Int
  Right : Int
  Bottom : Int
deriving DecidableEq, Repr

/-- The minimum size for a selection box (`const i32 MinSize = 32`). -/
def MinSize : Int := 32

/-- Virtual key code `VK_F4` of the Windows SDK. -/
def VK_F4 : Nat := 0x73

/-- Virtual key code `VK_ESCAPE` of the Windows SDK. -/
def VK_ESCAPE : Nat := 0x1B

/-- The range of `i32`. -/
def InI32 (n : Int) : Prop := -2147483648 ≤ n ∧ n ≤ 2147483647

instance (n : Int) : Decidable (InI32 n) := by
  unfold InI32; exact inferInstance

/-- Two's complement wrap-around of an integer to `i32`. -/
def wrapI32 (n : Int) : Int := (n + 2147483648) % 4294967296 - 2147483648

/-- Number of low bits an integer of magnitude `a` loses when stored in an `r32`
(24 bit significand): the least `k` with `a / 2^k < 2^24`. -/
def r32Shift : Nat → Nat → Nat
  | 0, _ => 0
  | fuel + 1, a => if a < 16777216 then 0 else 1 + r32Shift fuel (a / 2)

/-- The conversion `(r32)n` of an `i32`: round to the nearest value with a 24 bit
significand, ties to even.  The result is again an integer. -/
def castR32 (n : Int) : Int :=
  let a := n.natAbs
  let k := r32Shift 64 a
  let q := a / 2 ^ k
  let r := a % 2 ^ k
  let q1 := if 2 ^ k < 2 * r ∨ (2 * r = 2 ^ k ∧ q % 2 = 1) then q + 1 else q
  Int.sign n * ((q1 * 2 ^ k : Nat) : Int)

/-- The conversion `(i32)f` of an integral `r32` value: the value itself when it is
representable, and the x86 "integer indefinite" value `INT_MIN` otherwise. -/
def castI32 (f : Int) : Int := if InI32 f then f else -2147483648

/-- The globals of the program, the function-local static `TrackingMouse`, and the
observable effects on the platform. -/
structure State where
  /-- Compile-time switch `PCG_ATTEMPT_VSYNC` (off by default). -/
  PCG_ATTEMPT_VSYNC : Bool
  G_Running : Bool
  G_HasDrawnSelection : Bool
  G_IsDrawingSelection : Bool
  G_SelectionStart : POINT
  G_SelectionEnd : POINT
  G_SelectionIsValid : Bool
  /-- The `HMONITOR` handle, as a number. -/
  G_WindowMonitor : Nat
  /-- Value of the `r32` global; always integral. -/
  G_WorkAreaW : Int
  /-- Value of the `r32` global; always integral. -/
  G_WorkAreaH : Int
  /-- The `localpersist` of `PcgCamUtilityProcedure`. -/
  TrackingMouse : Bool
  /-- Number of `InvalidateRect` calls made through `Repaint`. -/
  Repaints : Nat
  /-- Arguments of the last `SetWindowPos` call, if any. -/
  Placement : Option WindowPos
  /-- Alpha passed to the last `SetLayeredWindowAttributes` call. -/
  Alpha : Nat
  /-- The `MessageBox` calls made so far, oldest first. -/
  Shown : List ResultBox
deriving DecidableEq, Repr

/-- The messages the window procedure distinguishes.  Each carries the answers the
platform gives to the queries made while the message is handled. -/
inductive Msg where
  /-- The messages `WM_SYSKEYDOWN`, `WM_SYSKEYUP`, `WM_KEYDOWN`, `WM_KEYUP`, with
  `WParam` and the 64 bit pattern of `LParam`. -/
  | WM_KEY (WParam : Nat) (LParam : Nat)
  | WM_CLOSE
  | WM_DESTROY
  | WM_TIMER
  /-- The messages `WM_LBUTTONDOWN` and `WM_NCLBUTTONDOWN`; `Cursor` answers the
  `GetCursorPos`/`ScreenToClient` pair of the handler, `Cursor2` the pair inside
  `UpdateSelection`. -/
  | WM_LBUTTONDOWN (Cursor : POINT) (Cursor2 : POINT)
  /-- The messages `WM_LBUTTONUP` and `WM_NCLBUTTONUP`, with the cursor in client
  coordinates. -/
  | WM_LBUTTONUP (Cursor : POINT)
  /-- The messages `WM_RBUTTONUP` and `WM_NCRBUTTONUP`. -/
  | WM_RBUTTONUP
  /-- The message `WM_MOUSELEAVE`, with `MonitorFromPoint`, `GetMonitorInfoA` on it
  (`none` when the call fails), and for the nested `UpdateMonitorStats` the answers of
  `MonitorFromWindow` and `GetMonitorInfoA`. -/
  | WM_MOUSELEAVE (Monitor : Nat) (Info : Option RECT) (WindowMonitor : Nat)
      (StatsInfo : Option RECT)
  /-- The message `WM_MOUSEMOVE`, with the cursor in client coordinates. -/
  | WM_MOUSEMOVE (Cursor : POINT)
  | WM_PAINT
  | WM_QUIT
  /-- Any other message: it goes to `DefWindowProcA`. -/
  | Other
deriving DecidableEq, Repr

/-! ## Operations -/

/-- Returns whether the two given points have different X -or- Y coordinates. -/
def ArePointsDifferent (A B : POINT) : Bool :=
  A.x != B.x || A.y != B.y

/-- One `InvalidateRect` request. -/
def Repaint (s : State) : State :=
  { s with Repaints := s.Repaints + 1 }

/-- Updates the selection rectangle and issues a redraw request if it has changed.
`Cursor` is the answer of `GetCursorPos` followed by `ScreenToClient`. -/
def UpdateSelection (s : State) (Cursor : POINT) : State :=
  let PreviousStart := s.G_SelectionStart
  let PreviousEnd := s.G_SelectionEnd
  let PointA := s.G_SelectionStart
  let PointB := Cursor
  let s1 := { s with G_SelectionStart := PointA, G_SelectionEnd := PointB }
  if ArePointsDifferent PreviousStart s1.G_SelectionStart
      || ArePointsDifferent PreviousEnd s1.G_SelectionEnd then
    let s2 := { s1 with
      G_SelectionIsValid :=
        decide (wrapI32 (s1.G_SelectionEnd.x - s1.G_SelectionStart.x) ≥ MinSize)
          && decide (wrapI32 (s1.G_SelectionEnd.y - s1.G_SelectionStart.y) ≥ MinSize) }
    if s2.PCG_ATTEMPT_VSYNC then s2 else Repaint s2
  else
    s1

/-- Re-reads the monitor of the window and, when `GetMonitorInfoA` succeeds, its work
area. -/
def UpdateMonitorStats (s : State) (WindowMonitor : Nat) (Info : Option RECT) : State :=
  let s1 := { s with G_WindowMonitor := WindowMonitor }
  match Info with
  | some rcWork =>
    { s1 with
      G_WorkAreaW := castR32 (wrapI32 (rcWork.right - rcWork.left))
      G_WorkAreaH := castR32 (wrapI32 (rcWork.bottom - rcWork.top)) }
  | none => s1

/-- Updates the window position (for when the window should move to the monitor the
cursor is on). -/
def UpdateWindowPosition (s : State) (Monitor : Nat) (Info : Option RECT)
    (WindowMonitor : Nat) (StatsInfo : Option RECT) : State :=
  if s.G_WindowMonitor ≠ Monitor then
    match Info with
    | some rcWork =>
      let s1 := { s with
        Placement := some
          { X := rcWork.left, Y := rcWork.top,
            cx := wrapI32 (rcWork.right - rcWork.left),
            cy := wrapI32 (rcWork.bottom - rcWork.top) } }
      let s2 := { s1 with G_WindowMonitor := Monitor }
      UpdateMonitorStats s2 WindowMonitor StatsInfo
    | none => s
  else
    s

/-- The `WasDown` flag of a key message: bit 30 of `LParam`. -/
def WasDown (LParam : Nat) : Bool := LParam.testBit 30

/-- The `IsDown` flag of a key message: `(LParam & (1 << 31)) == 0`, where the `int`
mask `1 << 31` is sign-extended to the 64 bits of `LParam`. -/
def IsDown (LParam : Nat) : Bool := LParam % 18446744073709551616 / 2147483648 == 0

/-- The `AltModifier` flag of a key message: bit 29 of `LParam`. -/
def AltModifier (LParam : Nat) : Bool := LParam.testBit 29

/-- The valid branch of `WM_LBUTTONUP`: compute the four distances, hide the window,
show the message box, stop the program. -/
def ShowResult (s : State) : State :=
  let Left := s.G_SelectionStart.x
  let Top := s.G_SelectionStart.y
  let Right := wrapI32 (castI32 s.G_WorkAreaW - s.G_SelectionEnd.x)
  let Bottom := wrapI32 (castI32 s.G_WorkAreaH - s.G_SelectionEnd.y)
  { s with
    Alpha := 0
    Shown := s.Shown ++ [{ Left := Left, Top := Top, Right := Right, Bottom := Bottom }]
    G_Running := false }

/-- The window procedure. -/
def PcgCamUtilityProcedure (s : State) : Msg → State
  | .WM_KEY WParam LParam =>
    let VKCode := WParam % 4294967296
    if IsDown LParam != WasDown LParam then
      let s1 := if VKCode = VK_F4 ∧ AltModifier LParam = true then
        { s with G_Running := false } else s
      if VKCode = VK_ESCAPE then { s1 with G_Running := false } else s1
    else s
  | .WM_CLOSE => { s with G_Running := false }
  | .WM_DESTROY => { s with G_Running := false }
  | .WM_TIMER => Repaint s
  | .WM_LBUTTONDOWN Cursor Cursor2 =>
    if !s.G_IsDrawingSelection then
      let s1 := { s with G_SelectionStart := Cursor }
      let s2 := { s1 with G_IsDrawingSelection := true }
      UpdateSelection s2 Cursor2
    else s
  | .WM_LBUTTONUP Cursor =>
    if s.G_IsDrawingSelection then
      let s1 := { s with G_IsDrawingSelection := false }
      let s2 := { s1 with G_HasDrawnSelection := true }
      let s3 := UpdateSelection s2 Cursor
      if s3.G_HasDrawnSelection && s3.G_SelectionIsValid then
        ShowResult s3
      else
        Repaint { s3 with
          G_HasDrawnSelection := false
          G_SelectionStart := { x := 0, y := 0 }
          G_SelectionEnd := { x := 0, y := 0 } }
    else s
  | .WM_RBUTTONUP => { s with G_Running := false }
  | .WM_MOUSELEAVE Monitor Info WindowMonitor StatsInfo =>
    let s1 := UpdateWindowPosition s Monitor Info WindowMonitor StatsInfo
    { s1 with TrackingMouse := false }
  | .WM_MOUSEMOVE Cursor =>
    let s1 := if !s.TrackingMouse then { s with TrackingMouse := true } else s
    if s1.G_IsDrawingSelection then UpdateSelection s1 Cursor else s1
  | .WM_PAINT => s
  | .WM_QUIT => s
  | .Other => s

/-- The program loop of `WinMain`: `while (G_Running && GetMessageA(...))`.  The list
holds the messages `GetMessageA` delivers; its end is `GetMessageA` returning 0. -/
def ProgramLoop (s : State) : List Msg → State
  | [] => s
  | m :: rest =>
    if s.G_Running then
      let s1 := if m = Msg.WM_QUIT then { s with G_Running := false } else s
      ProgramLoop (PcgCamUtilityProcedure s1 m) rest
    else s

/-- What the platform answers during the start-up part of `WinMain`. -/
structure Startup where
  PCG_ATTEMPT_VSYNC : Bool
  RegisterClassA : Bool
  CreateWindowExA : Bool
  /-- Answer of `GetWindowPlacement` in `ToggleWindowFullScreen`. -/
  GetWindowPlacement : Bool
  /-- Answer of `GetMonitorInfoA` in `ToggleWindowFullScreen`. -/
  FullScreenInfo : Option RECT
  /-- Answer of `MonitorFromWindow` in the first `UpdateMonitorStats`. -/
  WindowMonitor : Nat
  /-- Answer of `GetMonitorInfoA` in the first `UpdateMonitorStats`. -/
  StatsInfo : Option RECT
deriving DecidableEq, Repr

/-- The zero-initialised globals. -/
def ZeroState (vsync : Bool) : State :=
  { PCG_ATTEMPT_VSYNC := vsync, G_Running := false, G_HasDrawnSelection := false,
    G_IsDrawingSelection := false, G_SelectionStart := { x := 0, y := 0 },
    G_SelectionEnd := { x := 0, y := 0 }, G_SelectionIsValid := false,
    G_WindowMonitor := 0, G_WorkAreaW := 0, G_WorkAreaH := 0, TrackingMouse := false,
    Repaints := 0, Placement := none, Alpha := 255, Shown := [] }

/-- Makes the given window cover the work area of its monitor.  The window was created
with `WS_OVERLAPPEDWINDOW`, so the style test succeeds. -/
def ToggleWindowFullScreen (s : State) (PlacementOk : Bool) (Info : Option RECT) : State :=
  match PlacementOk, Info with
  | true, some rcWork =>
    { s with
      Placement := some
        { X := rcWork.left, Y := rcWork.top,
          cx := wrapI32 (rcWork.right - rcWork.left),
          cy := wrapI32 (rcWork.bottom - rcWork.top) } }
  | _, _ => s

/-- The state with which `WinMain` enters the program loop. -/
def InitialState (e : Startup) : State :=
  let s0 := { ZeroState e.PCG_ATTEMPT_VSYNC with Alpha := 128 }
  let s1 := ToggleWindowFullScreen s0 e.GetWindowPlacement e.FullScreenInfo
  let s2 := UpdateMonitorStats s1 e.WindowMonitor e.StatsInfo
  { s2 with G_Running := true }

/-- The entry point: the exit code and the final state of the globals. -/
def WinMain (e : Startup) (msgs : List Msg) : Int × State :=
  if !e.RegisterClassA then (1, ZeroState e.PCG_ATTEMPT_VSYNC)
  else if !e.CreateWindowExA then (1, ZeroState e.PCG_ATTEMPT_VSYNC)
  else (0, ProgramLoop (InitialState e) msgs)

/-! ## Vocabulary of the specification -/

/-- The selection test of `UpdateSelection`, on a start and an end corner. -/
def SizeTest (a b : POINT) : Bool :=
  decide (wrapI32 (b.x - a.x) ≥ MinSize) && decide (wrapI32 (b.y - a.y) ≥ MinSize)

/-- A drag from `p1` to `p2`: pointer-down with the cursor at `p1`, pointer-move to
`p2`, pointer-up at `p2`. -/
def Drag (p1 p2 : POINT) : List Msg :=
  [.WM_LBUTTONDOWN p1 p1, .WM_MOUSEMOVE p2, .WM_LBUTTONUP p2]

/-- The program is running and no drag is in progress. -/
def Idle (s : State) : Prop :=
  s.G_Running = true ∧ s.G_IsDrawingSelection = false ∧ s.G_HasDrawnSelection = false

instance (s : State) : Decidable (Idle s) := by
  unfold Idle; exact inferInstance

/-- The program is running and a drag is in progress. -/
def Dragging (s : State) : Prop :=
  s.G_Running = true ∧ s.G_IsDrawingSelection = true

instance (s : State) : Decidable (Dragging s) := by
  unfold Dragging; exact inferInstance

/-- The flag with which the drag from `p1` to `p2` commits when it starts in `s`: the
flag is recomputed whenever a corner moves, and kept otherwise. -/
def DragFlag (s : State) (p1 p2 : POINT) : Bool :=
  if p1 = p2 ∧ s.G_SelectionEnd = p1 then s.G_SelectionIsValid else SizeTest p1 p2

/-- The outcome of a drag: the validity flag at commit and the message boxes shown. -/
def Outcome (s : State) (p1 p2 : POINT) : Bool × List ResultBox :=
  ((ProgramLoop s (Drag p1 p2)).G_SelectionIsValid, (ProgramLoop s (Drag p1 p2)).Shown)

/-- A start-up on a single 1920x1080 work area where every platform call succeeds. -/
def Desktop : Startup :=
  { PCG_ATTEMPT_VSYNC := false, RegisterClassA := true, CreateWindowExA := true,
    GetWindowPlacement := true, FullScreenInfo := some ⟨0, 0, 1920, 1080⟩,
    WindowMonitor := 1, StatsInfo := some ⟨0, 0, 1920, 1080⟩ }

/-- In a running state nothing has been shown yet, no selection is recorded as drawn,
and outside a drag the validity flag is down. -/
def Quiet (s : State) : Prop :=
  s.G_Running = true →
    s.Shown = [] ∧ s.G_HasDrawnSelection = false
      ∧ (s.G_IsDrawingSelection = false → s.G_SelectionIsValid = false)

/-- The cancellation events: a key transition of Escape, a key transition of F4 with
Alt held, right-button-up, and window close. -/
def IsCancel : Msg → Bool
  | .WM_KEY WParam LParam =>
    (IsDown LParam != WasDown LParam)
      && (WParam % 4294967296 == VK_ESCAPE
          || (WParam % 4294967296 == VK_F4 && AltModifier LParam))
  | .WM_CLOSE => true
  | .WM_DESTROY => true
  | .WM_RBUTTONUP => true
  | _ => false

/-- Whether handling `m` in state `s` takes the valid branch of `WM_LBUTTONUP`: a
pointer-up during a drag whose `UpdateSelection` leaves the validity flag up. -/
def CommitsValid (s : State) : Msg → Bool
  | .WM_LBUTTONUP Cursor =>
    s.G_IsDrawingSelection
      && (UpdateSelection
            { s with G_IsDrawingSelection := false, G_HasDrawnSelection := true }
            Cursor).G_SelectionIsValid
  | _ => false

/-- The box the valid branch of `WM_LBUTTONUP` shows when the pointer is released at
`Cursor` in state `s`. -/
def CommitBox (s : State) (Cursor : POINT) : ResultBox :=
  { Left := s.G_SelectionStart.x, Top := s.G_SelectionStart.y,
    Right := wrapI32 (castI32 s.G_WorkAreaW - Cursor.x),
    Bottom := wrapI32 (castI32 s.G_WorkAreaH - Cursor.y) }

/-- The text of the message box: the four values in the order Left, Top, Right,
Bottom (`ResultMessage` of the valid branch of `WM_LBUTTONUP`). -/
def ResultMessage (r : ResultBox) : String :=
  "Left:\t  " ++ toString r.Left ++
  "\nTop:\t  " ++ toString r.Top ++
  "\nRight:\t  " ++ toString r.Right ++
  "\nBottom:\t  " ++ toString r.Bottom ++
  "                                          "

/-- A start-up where the platform cannot report monitor info. -/
def NoMonitorInfo : Startup :=
  { Desktop with FullScreenInfo := none, StatsInfo := none }

/-- The 1920x1080 desktop with a drag in progress from (100,100), the cursor at
(1900,500) and leave-tracking armed. -/
def MidDrag : State :=
  ProgramLoop (InitialState Desktop)
    [.WM_MOUSEMOVE ⟨100, 100⟩, .WM_LBUTTONDOWN ⟨100, 100⟩ ⟨100, 100⟩,
     .WM_MOUSEMOVE ⟨1900, 500⟩]

/-- The cursor has left for monitor 2, whose work area is 1280x1024 and lies to the right
of the desktop; every query succeeds. -/
def LeaveToMonitor2 : Msg :=
  .WM_MOUSELEAVE 2 (some ⟨1920, 0, 3200, 1024⟩) 2 (some ⟨1920, 0, 3200, 1024⟩)

/-- The cursor is at rest while the message is handled: the two cursor samples taken
for a pointer-down, in the handler and in `UpdateSelection`, coincide. -/
def CursorAtRest : Msg → Bool
  | .WM_LBUTTONDOWN Cursor Cursor2 => decide (Cursor = Cursor2)
  | _ => true

/-- The stored flag `G_SelectionIsValid` equals the selection test of `UpdateSelection`
evaluated on the stored corners. -/
def FlagAccurate (s : State) : Prop :=
  s.G_SelectionIsValid = SizeTest s.G_SelectionStart s.G_SelectionEnd

instance (s : State) : Decidable (FlagAccurate s) := by
  unfold FlagAccurate; exact inferInstance

/-- A pointer-down that leaves the flag stale when handled in an idle state reached from
program start: its second cursor sample is the origin, where the end corner already is,
and its two samples pass the selection test. -/
def StaleDown : Msg → Bool
  | .WM_LBUTTONDOWN Cursor Cursor2 =>
    decide (Cursor2 = { x := 0, y := 0 }) && SizeTest Cursor Cursor2
  | _ => false

/-- In a running state outside a drag the stored end corner is the origin. -/
def EndAtOrigin (s : State) : Prop :=
  s.G_Running = true → s.G_IsDrawingSelection = false →
    s.G_SelectionEnd = { x := 0, y := 0 }

/-! ## Basic facts about the operations -/

theorem ArePointsDifferent_self (A : POINT) : ArePointsDifferent A A = false := by
  simp [ArePointsDifferent]

theorem ArePointsDifferent_iff (A B : POINT) : ArePointsDifferent A B = true ↔ A ≠ B := by
  cases A; cases B; simp [ArePointsDifferent]; tauto

theorem wrapI32_of_InI32 {n : Int} (h : InI32 n) : wrapI32 n = n := by
  unfold InI32 at h
  unfold wrapI32
  omega

theorem castI32_of_InI32 {n : Int} (h : InI32 n) : castI32 n = n := by
  simp [castI32, h]

theorem SizeTest_self (p : POINT) : SizeTest p p = false := by
  simp [SizeTest, wrapI32, MinSize]

theorem SizeTest_iff (a b : POINT) (hx : InI32 (b.x - a.x)) (hy : InI32 (b.y - a.y)) :
    SizeTest a b = true ↔ 32 ≤ b.x - a.x ∧ 32 ≤ b.y - a.y := by
  simp [SizeTest, wrapI32_of_InI32 hx, wrapI32_of_InI32 hy, MinSize]

theorem SizeTest_reverse (a b : POINT) (h : SizeTest a b = true) : SizeTest b a = false := by
  have e1 : a.x - b.x = -(b.x - a.x) := by ring
  have e2 : a.y - b.y = -(b.y - a.y) := by ring
  cases hr : SizeTest b a
  · rfl
  · exfalso
    simp only [SizeTest, Bool.and_eq_true, decide_eq_true_eq, MinSize, e1] at h hr
    unfold wrapI32 at h hr
    omega

theorem UpdateSelection_same (s : State) (c : POINT) (h : s.G_SelectionEnd = c) :
    UpdateSelection s c = s := by
  subst h
  simp [UpdateSelection, ArePointsDifferent_self]

theorem UpdateSelection_changed (s : State) (c : POINT) (h : s.G_SelectionEnd ≠ c) :
    UpdateSelection s c =
      { s with
        G_SelectionEnd := c
        G_SelectionIsValid := SizeTest s.G_SelectionStart c
        Repaints := if s.PCG_ATTEMPT_VSYNC then s.Repaints else s.Repaints + 1 } := by
  have h2 : ArePointsDifferent s.G_SelectionEnd c = true := (ArePointsDifferent_iff _ _).2 h
  cases hv : s.PCG_ATTEMPT_VSYNC <;>
    simp [UpdateSelection, ArePointsDifferent_self, h2, hv, Repaint, SizeTest]

theorem UpdateSelection_eq (s : State) (c : POINT) :
    UpdateSelection s c =
      if s.G_SelectionEnd = c then s else
        { s with
          G_SelectionEnd := c
          G_SelectionIsValid := SizeTest s.G_SelectionStart c
          Repaints := if s.PCG_ATTEMPT_VSYNC then s.Repaints else s.Repaints + 1 } := by
  by_cases h : s.G_SelectionEnd = c
  · simp [h, UpdateSelection_same]
  · simp [h, UpdateSelection_changed]

theorem ProgramLoop_stopped (s : State) (msgs : List Msg) (hr : s.G_Running = false) :
    ProgramLoop s msgs = s := by
  cases msgs <;> simp [ProgramLoop, hr]

/-- What a drag from an idle state leaves behind, field by field. -/
theorem Drag_outcome (s : State) (p1 p2 : POINT) (hs : Idle s) :
    (ProgramLoop s (Drag p1 p2)).G_SelectionIsValid = DragFlag s p1 p2
    ∧ (ProgramLoop s (Drag p1 p2)).Shown =
        (if DragFlag s p1 p2 then
          s.Shown ++ [{ Left := p1.x, Top := p1.y,
                        Right := wrapI32 (castI32 s.G_WorkAreaW - p2.x),
                        Bottom := wrapI32 (castI32 s.G_WorkAreaH - p2.y) }]
         else s.Shown)
    ∧ (ProgramLoop s (Drag p1 p2)).G_Running = !DragFlag s p1 p2
    ∧ (ProgramLoop s (Drag p1 p2)).G_IsDrawingSelection = false
    ∧ (ProgramLoop s (Drag p1 p2)).G_HasDrawnSelection = DragFlag s p1 p2
    ∧ (ProgramLoop s (Drag p1 p2)).G_SelectionStart
        = (if DragFlag s p1 p2 then p1 else { x := 0, y := 0 })
    ∧ (ProgramLoop s (Drag p1 p2)).G_SelectionEnd
        = (if DragFlag s p1 p2 then p2 else { x := 0, y := 0 })
    ∧ (ProgramLoop s (Drag p1 p2)).G_WorkAreaW = s.G_WorkAreaW
    ∧ (ProgramLoop s (Drag p1 p2)).G_WorkAreaH = s.G_WorkAreaH := by
  obtain ⟨hr, hd, hh⟩ := hs
  have hz : SizeTest p1 p1 = false := SizeTest_self p1
  by_cases h1 : s.G_SelectionEnd = p1 <;> by_cases h2 : p1 = p2 <;>
    cases hv : s.PCG_ATTEMPT_VSYNC <;> cases ht : s.TrackingMouse <;>
    cases hf : SizeTest p1 p2 <;> cases hg : s.G_SelectionIsValid <;>
    simp_all [Drag, ProgramLoop, PcgCamUtilityProcedure, UpdateSelection_eq,
      ShowResult, Repaint, DragFlag]

theorem DragFlag_of_ne (s : State) (p1 p2 : POINT) (h : p1 ≠ p2) :
    DragFlag s p1 p2 = SizeTest p1 p2 := by
  simp [DragFlag, h]

/-- A drag that commits as valid has its start corner at the top left. -/
theorem DragFlag_corners (s : State) (p1 p2 : POINT) (hx : InI32 (p2.x - p1.x))
    (hy : InI32 (p2.y - p1.y)) (h : DragFlag s p1 p2 = true) :
    p1.x ≤ p2.x ∧ p1.y ≤ p2.y := by
  by_cases he : p1 = p2
  · subst he; exact ⟨le_refl _, le_refl _⟩
  · rw [DragFlag_of_ne s p1 p2 he, SizeTest_iff p1 p2 hx hy] at h
    omega

theorem UpdateSelection_frame (s : State) (c : POINT) :
    (UpdateSelection s c).G_Running = s.G_Running
    ∧ (UpdateSelection s c).Shown = s.Shown
    ∧ (UpdateSelection s c).G_HasDrawnSelection = s.G_HasDrawnSelection
    ∧ (UpdateSelection s c).G_IsDrawingSelection = s.G_IsDrawingSelection
    ∧ (UpdateSelection s c).G_SelectionStart = s.G_SelectionStart
    ∧ (UpdateSelection s c).G_SelectionEnd = c
    ∧ (UpdateSelection s c).G_WorkAreaW = s.G_WorkAreaW
    ∧ (UpdateSelection s c).G_WorkAreaH = s.G_WorkAreaH := by
  rw [UpdateSelection_eq]
  by_cases h : s.G_SelectionEnd = c <;> simp [h]

theorem UpdateWindowPosition_frame (s : State) (Monitor : Nat) (Info : Option RECT)
    (WindowMonitor : Nat) (StatsInfo : Option RECT) :
    (UpdateWindowPosition s Monitor Info WindowMonitor StatsInfo).G_Running = s.G_Running
    ∧ (UpdateWindowPosition s Monitor Info WindowMonitor StatsInfo).Shown = s.Shown
    ∧ (UpdateWindowPosition s Monitor Info WindowMonitor StatsInfo).G_HasDrawnSelection
        = s.G_HasDrawnSelection
    ∧ (UpdateWindowPosition s Monitor Info WindowMonitor StatsInfo).G_IsDrawingSelection
        = s.G_IsDrawingSelection
    ∧ (UpdateWindowPosition s Monitor Info WindowMonitor StatsInfo).G_SelectionStart
        = s.G_SelectionStart
    ∧ (UpdateWindowPosition s Monitor Info WindowMonitor StatsInfo).G_SelectionEnd
        = s.G_SelectionEnd
    ∧ (UpdateWindowPosition s Monitor Info WindowMonitor StatsInfo).G_SelectionIsValid
        = s.G_SelectionIsValid := by
  unfold UpdateWindowPosition UpdateMonitorStats
  by_cases h : s.G_WindowMonitor = Monitor <;> cases Info <;> cases StatsInfo <;> simp [h]

/-- The window procedure never restarts a stopped program. -/
theorem Procedure_running (s : State) (m : Msg)
    (h : (PcgCamUtilityProcedure s m).G_Running = true) : s.G_Running = true := by
  cases hr : s.G_Running
  · exfalso
    cases m <;>
      simp [PcgCamUtilityProcedure, UpdateSelection_eq, ShowResult, Repaint,
        UpdateWindowPosition_frame, hr] at h <;>
      (repeat' split at h) <;> simp_all
  · rfl

theorem Procedure_Quiet (s : State) (m : Msg) (hq : Quiet s) :
    Quiet (PcgCamUtilityProcedure s m) := by
  intro hr'
  have hr := Procedure_running s m hr'
  obtain ⟨h1, h2, h3⟩ := hq hr
  cases m with
  | WM_MOUSELEAVE Monitor Info WindowMonitor StatsInfo =>
    have hf := UpdateWindowPosition_frame s Monitor Info WindowMonitor StatsInfo
    simp only [PcgCamUtilityProcedure]
    refine ⟨?_, ?_, ?_⟩
    · rw [hf.2.1]; exact h1
    · rw [hf.2.2.1]; exact h2
    · rw [hf.2.2.2.1, hf.2.2.2.2.2.2]; exact h3
  | WM_LBUTTONDOWN c c2 =>
    cases hd : s.G_IsDrawingSelection
    · simp_all [PcgCamUtilityProcedure, UpdateSelection_eq]
      split <;> simp_all
    · simp_all [PcgCamUtilityProcedure, UpdateSelection_eq]
  | WM_LBUTTONUP c =>
    cases hd : s.G_IsDrawingSelection
    · simp_all [PcgCamUtilityProcedure, UpdateSelection_eq, ShowResult, Repaint]
    · simp_all [PcgCamUtilityProcedure, UpdateSelection_eq, ShowResult, Repaint]
      (repeat' split) <;> simp_all
  | WM_MOUSEMOVE c =>
    cases hd : s.G_IsDrawingSelection <;> cases ht : s.TrackingMouse <;>
      simp_all [PcgCamUtilityProcedure, UpdateSelection_eq] <;>
      split <;> simp_all
  | WM_KEY w l =>
    simp only [PcgCamUtilityProcedure] at hr' ⊢
    (repeat' split) <;> simp_all
  | _ => simp_all [PcgCamUtilityProcedure, Repaint]

theorem ProgramLoop_Quiet (s : State) (msgs : List Msg) (hq : Quiet s) :
    Quiet (ProgramLoop s msgs) := by
  induction msgs generalizing s with
  | nil => exact hq
  | cons m rest ih =>
    cases hr : s.G_Running
    · rw [ProgramLoop_stopped s _ hr]; exact hq
    · simp only [ProgramLoop, hr, if_true]
      apply ih
      by_cases hm : m = Msg.WM_QUIT
      · subst hm
        intro h
        simp [PcgCamUtilityProcedure] at h
      · simp only [hm, if_false]
        exact Procedure_Quiet s m hq

theorem InitialState_Quiet (e : Startup) : Quiet (InitialState e) := by
  intro _
  unfold InitialState UpdateMonitorStats ToggleWindowFullScreen ZeroState
  cases e.GetWindowPlacement <;> cases e.FullScreenInfo <;> cases e.StatsInfo <;> simp

/-- Every state the program loop reaches from program start is quiet. -/
theorem Reachable_Quiet (e : Startup) (msgs : List Msg) :
    Quiet (ProgramLoop (InitialState e) msgs) :=
  ProgramLoop_Quiet _ _ (InitialState_Quiet e)

theorem ProgramLoop_cons (s : State) (m : Msg) (rest : List Msg)
    (hr : s.G_Running = true) (hm : m ≠ Msg.WM_QUIT) :
    ProgramLoop s (m :: rest) = ProgramLoop (PcgCamUtilityProcedure s m) rest := by
  simp [ProgramLoop, hr, hm]

theorem ProgramLoop_quit (s : State) (rest : List Msg) (hr : s.G_Running = true) :
    ProgramLoop s (Msg.WM_QUIT :: rest) = { s with G_Running := false } := by
  simp only [ProgramLoop, hr, if_true, PcgCamUtilityProcedure]
  exact ProgramLoop_stopped _ _ rfl

theorem ProgramLoop_append (s : State) (a b : List Msg) :
    ProgramLoop s (a ++ b) = ProgramLoop (ProgramLoop s a) b := by
  induction a generalizing s with
  | nil => rfl
  | cons m rest ih =>
    cases hr : s.G_Running
    · rw [List.cons_append, ProgramLoop_stopped s _ hr, ProgramLoop_stopped s _ hr,
        ProgramLoop_stopped s _ hr]
    · simp only [List.cons_append, ProgramLoop, hr, if_true]
      exact ih _

/-- A cancellation event only lowers `G_Running`. -/
theorem Procedure_cancel (s : State) (m : Msg) (hc : IsCancel m = true) :
    PcgCamUtilityProcedure s m = { s with G_Running := false } := by
  cases m with
  | WM_KEY w l =>
    simp only [IsCancel, Bool.and_eq_true, Bool.or_eq_true, beq_iff_eq] at hc
    obtain ⟨ht, hk⟩ := hc
    simp only [PcgCamUtilityProcedure, ht, if_true]
    rcases hk with hk | ⟨hk, ha⟩
    · have h4 : ¬ (VK_ESCAPE = VK_F4) := by decide
      simp [hk, h4]
    · have h4 : ¬ (VK_F4 = VK_ESCAPE) := by decide
      simp [hk, ha, h4]
  | WM_CLOSE => rfl
  | WM_DESTROY => rfl
  | WM_RBUTTONUP => rfl
  | _ => simp [IsCancel] at hc

theorem IsCancel_ne_quit (m : Msg) (hc : IsCancel m = true) : m ≠ Msg.WM_QUIT := by
  intro h
  subst h
  simp [IsCancel] at hc

theorem CommitsValid_ne_quit (s : State) (m : Msg) (hc : CommitsValid s m = true) :
    m ≠ Msg.WM_QUIT := by
  intro h
  subst h
  simp [CommitsValid] at hc

/-- The message boxes after one message: one more box exactly on a valid commit. -/
theorem Procedure_shown (s : State) (m : Msg) :
    (CommitsValid s m = false → (PcgCamUtilityProcedure s m).Shown = s.Shown)
    ∧ (CommitsValid s m = true →
        ∃ c, m = Msg.WM_LBUTTONUP c
          ∧ (PcgCamUtilityProcedure s m).Shown = s.Shown ++ [CommitBox s c]
          ∧ (PcgCamUtilityProcedure s m).G_Running = false) := by
  cases m with
  | WM_LBUTTONUP c =>
    have hf := UpdateSelection_frame
      { s with G_IsDrawingSelection := false, G_HasDrawnSelection := true } c
    cases hd : s.G_IsDrawingSelection
    · simp [CommitsValid, PcgCamUtilityProcedure, hd]
    · cases hv : (UpdateSelection
          { s with G_IsDrawingSelection := false, G_HasDrawnSelection := true }
          c).G_SelectionIsValid
      · simp [CommitsValid, PcgCamUtilityProcedure, hd, hv, Repaint, hf.2.1]
      · simp [CommitsValid, PcgCamUtilityProcedure, hd, hv, ShowResult, CommitBox, hf]
  | WM_MOUSELEAVE Monitor Info WindowMonitor StatsInfo =>
    simp [CommitsValid, PcgCamUtilityProcedure,
      (UpdateWindowPosition_frame s Monitor Info WindowMonitor StatsInfo).2.1]
  | WM_LBUTTONDOWN c c2 =>
    have hf := UpdateSelection_frame
      { s with G_SelectionStart := c, G_IsDrawingSelection := true } c2
    cases hd : s.G_IsDrawingSelection <;>
      simp [CommitsValid, PcgCamUtilityProcedure, hd, hf.2.1]
  | WM_MOUSEMOVE c =>
    simp only [CommitsValid, PcgCamUtilityProcedure]
    cases ht : s.TrackingMouse <;> cases hd : s.G_IsDrawingSelection <;>
      simp [UpdateSelection_frame, hd]
  | WM_KEY w l =>
    simp only [CommitsValid, PcgCamUtilityProcedure]
    refine ⟨fun _ => ?_, fun h => by simp at h⟩
    (repeat' split) <;> rfl
  | _ => simp [CommitsValid, PcgCamUtilityProcedure, Repaint]

/-- A valid commit ends the loop: the rest of the messages is never handled. -/
theorem Commit_terminal (s : State) (m : Msg) (post : List Msg)
    (hr : s.G_Running = true) (hc : CommitsValid s m = true) :
    ProgramLoop s (m :: post) = PcgCamUtilityProcedure s m
    ∧ (PcgCamUtilityProcedure s m).G_Running = false
    ∧ ∃ c, m = Msg.WM_LBUTTONUP c
        ∧ (PcgCamUtilityProcedure s m).Shown = s.Shown ++ [CommitBox s c] := by
  obtain ⟨c, hm, hs, hstop⟩ := (Procedure_shown s m).2 hc
  refine ⟨?_, hstop, c, hm, hs⟩
  rw [ProgramLoop_cons s m post hr (CommitsValid_ne_quit s m hc)]
  exact ProgramLoop_stopped _ _ hstop

/-- Starting with no box shown, the loop either ends with no box shown, or it handled a
valid commit and stopped right there. -/
theorem Loop_shown (s : State) (msgs : List Msg) (h0 : s.Shown = []) :
    (ProgramLoop s msgs).Shown = []
    ∨ ∃ pre m post, msgs = pre ++ m :: post
        ∧ (ProgramLoop s pre).G_Running = true
        ∧ CommitsValid (ProgramLoop s pre) m = true
        ∧ ProgramLoop s msgs = PcgCamUtilityProcedure (ProgramLoop s pre) m := by
  induction msgs generalizing s with
  | nil => exact Or.inl h0
  | cons m rest ih =>
    cases hr : s.G_Running
    · left; rw [ProgramLoop_stopped s _ hr]; exact h0
    · by_cases hq : m = Msg.WM_QUIT
      · subst hq
        left
        rw [ProgramLoop_quit s rest hr]
        exact h0
      · cases hc : CommitsValid s m
        · have hs : (PcgCamUtilityProcedure s m).Shown = [] := by
            rw [(Procedure_shown s m).1 hc]; exact h0
          rw [ProgramLoop_cons s m rest hr hq]
          rcases ih _ hs with h | ⟨pre, m2, post, e1, e2, e3, e4⟩
          · exact Or.inl h
          · right
            refine ⟨m :: pre, m2, post, by rw [e1]; rfl, ?_, ?_, ?_⟩
            · rw [ProgramLoop_cons s m pre hr hq]; exact e2
            · rw [ProgramLoop_cons s m pre hr hq]; exact e3
            · rw [ProgramLoop_cons s m pre hr hq]; exact e4
        · right
          exact ⟨[], m, rest, rfl, hr, hc, (Commit_terminal s m rest hr hc).1⟩

theorem UpdateSelection_FlagAccurate (s : State) (c : POINT) (ha : FlagAccurate s) :
    FlagAccurate (UpdateSelection s c) := by
  unfold FlagAccurate at ha ⊢
  rw [UpdateSelection_eq]
  by_cases h : s.G_SelectionEnd = c
  · simp only [h, if_true] at ha ⊢
    rw [ha]
  · simp [h]

theorem CursorAtRest_not_stale (m : Msg) (hc : CursorAtRest m = true) :
    StaleDown m = false := by
  cases m with
  | WM_LBUTTONDOWN c c2 =>
    have hcc : c = c2 := by simpa [CursorAtRest] using hc
    subst hcc
    simp [StaleDown, SizeTest_self]
  | _ => rfl

theorem Procedure_EndAtOrigin (s : State) (m : Msg) (ho : EndAtOrigin s) :
    EndAtOrigin (PcgCamUtilityProcedure s m) := by
  intro hr' hd'
  have hr := Procedure_running s m hr'
  cases m with
  | WM_MOUSELEAVE Monitor Info WindowMonitor StatsInfo =>
    have hf := UpdateWindowPosition_frame s Monitor Info WindowMonitor StatsInfo
    simp only [PcgCamUtilityProcedure] at hd' ⊢
    rw [hf.2.2.2.1] at hd'
    rw [hf.2.2.2.2.2.1]
    exact ho hr hd'
  | WM_LBUTTONDOWN c c2 =>
    cases hd : s.G_IsDrawingSelection
    · have hf := UpdateSelection_frame
        { s with G_SelectionStart := c, G_IsDrawingSelection := true } c2
      simp [PcgCamUtilityProcedure, hd, hf.2.2.2.1] at hd'
    · simp [PcgCamUtilityProcedure, hd] at hd'
  | WM_LBUTTONUP c =>
    cases hd : s.G_IsDrawingSelection
    · simpa [PcgCamUtilityProcedure, hd] using ho hr hd
    · have hf := UpdateSelection_frame
        { s with G_IsDrawingSelection := false, G_HasDrawnSelection := true } c
      cases hv : (UpdateSelection
          { s with G_IsDrawingSelection := false, G_HasDrawnSelection := true }
          c).G_SelectionIsValid
      · simp [PcgCamUtilityProcedure, hd, hv, Repaint]
      · simp [PcgCamUtilityProcedure, hd, hv, hf.2.2.1, ShowResult] at hr'
  | WM_MOUSEMOVE c =>
    cases ht : s.TrackingMouse <;> cases hd : s.G_IsDrawingSelection
    · simpa [PcgCamUtilityProcedure, ht, hd] using ho hr hd
    · simp [PcgCamUtilityProcedure, ht, hd, UpdateSelection_frame] at hd'
    · simpa [PcgCamUtilityProcedure, ht, hd] using ho hr hd
    · simp [PcgCamUtilityProcedure, ht, hd, UpdateSelection_frame] at hd'
  | WM_KEY w l =>
    simp only [PcgCamUtilityProcedure] at hr' hd' ⊢
    (repeat' split) <;> simp_all [EndAtOrigin]
  | _ => simp_all [PcgCamUtilityProcedure, Repaint, EndAtOrigin]

/-- One message that is not a stale pointer-down keeps the flag accurate. -/
theorem Procedure_FlagAccurate (s : State) (m : Msg) (hr : s.G_Running = true)
    (hq : Quiet s) (ho : EndAtOrigin s) (ha : FlagAccurate s)
    (hc : StaleDown m = false) :
    FlagAccurate (PcgCamUtilityProcedure s m) := by
  obtain ⟨_, _, hidle⟩ := hq hr
  cases m with
  | WM_LBUTTONDOWN c c2 =>
    cases hd : s.G_IsDrawingSelection
    · have hflag := hidle hd
      have hend := ho hr hd
      unfold FlagAccurate
      by_cases h : s.G_SelectionEnd = c2
      · have h0 : c2 = { x := 0, y := 0 } := by rw [← h]; exact hend
        have hs0 : SizeTest c c2 = false := by simpa [StaleDown, h0] using hc
        simp [PcgCamUtilityProcedure, hd, UpdateSelection_eq, h, hflag, hs0]
      · simp [PcgCamUtilityProcedure, hd, UpdateSelection_eq, h]
    · simpa [PcgCamUtilityProcedure, hd] using ha
  | WM_LBUTTONUP c =>
    cases hd : s.G_IsDrawingSelection
    · simpa [PcgCamUtilityProcedure, hd] using ha
    · have h2 : FlagAccurate
          { s with G_IsDrawingSelection := false, G_HasDrawnSelection := true } := ha
      have h3 := UpdateSelection_FlagAccurate _ c h2
      have hf := UpdateSelection_frame
        { s with G_IsDrawingSelection := false, G_HasDrawnSelection := true } c
      have hz := SizeTest_self { x := 0, y := 0 }
      unfold FlagAccurate at h3 ⊢
      cases hv : (UpdateSelection
          { s with G_IsDrawingSelection := false, G_HasDrawnSelection := true }
          c).G_SelectionIsValid
      · simp [PcgCamUtilityProcedure, hd, hv, Repaint, hz]
      · simp only [PcgCamUtilityProcedure, hd, hv, hf.2.2.1, if_true, Bool.and_self,
          ShowResult]
        rw [← h3, hv]
  | WM_MOUSEMOVE c =>
    cases ht : s.TrackingMouse <;> cases hd : s.G_IsDrawingSelection
    · simpa [PcgCamUtilityProcedure, ht, hd] using ha
    · have h2 : FlagAccurate { s with TrackingMouse := true } := ha
      simpa [PcgCamUtilityProcedure, ht, hd] using UpdateSelection_FlagAccurate _ c h2
    · simpa [PcgCamUtilityProcedure, ht, hd] using ha
    · simpa [PcgCamUtilityProcedure, ht, hd] using UpdateSelection_FlagAccurate _ c ha
  | WM_MOUSELEAVE Monitor Info WindowMonitor StatsInfo =>
    have hf := UpdateWindowPosition_frame s Monitor Info WindowMonitor StatsInfo
    unfold FlagAccurate at ha ⊢
    simp only [PcgCamUtilityProcedure]
    rw [hf.2.2.2.2.1, hf.2.2.2.2.2.1, hf.2.2.2.2.2.2]
    exact ha
  | WM_KEY w l =>
    unfold FlagAccurate at ha ⊢
    simp only [PcgCamUtilityProcedure]
    (repeat' split) <;> exact ha
  | _ => exact ha

theorem ProgramLoop_FlagAccurate (s : State) (msgs : List Msg) (hq : Quiet s)
    (ho : EndAtOrigin s) (ha : FlagAccurate s)
    (hc : ∀ m ∈ msgs, StaleDown m = false) :
    FlagAccurate (ProgramLoop s msgs) := by
  induction msgs generalizing s with
  | nil => exact ha
  | cons m rest ih =>
    cases hr : s.G_Running
    · rw [ProgramLoop_stopped s _ hr]; exact ha
    · by_cases hm : m = Msg.WM_QUIT
      · subst hm
        rw [ProgramLoop_quit s rest hr]
        exact ha
      · rw [ProgramLoop_cons s m rest hr hm]
        exact ih _ (Procedure_Quiet s m hq) (Procedure_EndAtOrigin s m ho)
          (Procedure_FlagAccurate s m hr hq ho ha (hc m (List.mem_cons_self m rest)))
          (fun m2 h2 => hc m2 (List.mem_cons_of_mem m h2))

theorem InitialState_FlagAccurate (e : Startup) : FlagAccurate (InitialState e) := by
  unfold FlagAccurate InitialState UpdateMonitorStats ToggleWindowFullScreen ZeroState
  cases e.GetWindowPlacement <;> cases e.FullScreenInfo <;> cases e.StatsInfo <;>
    simp [SizeTest_self]

/-- The state of a drag from an idle state just before the pointer-up, and the
pointer-up as the step that ends it. -/
theorem Drag_progress (s : State) (p1 p2 : POINT) (hs : Idle s) :
    (ProgramLoop s [.WM_LBUTTONDOWN p1 p1, .WM_MOUSEMOVE p2]).G_Running = true
    ∧ (ProgramLoop s [.WM_LBUTTONDOWN p1 p1, .WM_MOUSEMOVE p2]).G_IsDrawingSelection = true
    ∧ (ProgramLoop s [.WM_LBUTTONDOWN p1 p1, .WM_MOUSEMOVE p2]).G_SelectionStart = p1
    ∧ (ProgramLoop s [.WM_LBUTTONDOWN p1 p1, .WM_MOUSEMOVE p2]).G_SelectionEnd = p2
    ∧ (ProgramLoop s [.WM_LBUTTONDOWN p1 p1, .WM_MOUSEMOVE p2]).G_SelectionIsValid
        = DragFlag s p1 p2
    ∧ (ProgramLoop s [.WM_LBUTTONDOWN p1 p1, .WM_MOUSEMOVE p2]).Shown = s.Shown
    ∧ ProgramLoop s (Drag p1 p2)
        = PcgCamUtilityProcedure (ProgramLoop s [.WM_LBUTTONDOWN p1 p1, .WM_MOUSEMOVE p2])
            (.WM_LBUTTONUP p2) := by
  obtain ⟨hr, hd, hh⟩ := hs
  have hz : SizeTest p1 p1 = false := SizeTest_self p1
  by_cases h1 : s.G_SelectionEnd = p1 <;> by_cases h2 : p1 = p2 <;>
    cases hv : s.PCG_ATTEMPT_VSYNC <;> cases ht : s.TrackingMouse <;>
    cases hf : SizeTest p1 p2 <;> cases hg : s.G_SelectionIsValid <;>
    simp_all [Drag, ProgramLoop, PcgCamUtilityProcedure, UpdateSelection_eq,
      ShowResult, Repaint, DragFlag]

/-- A drag that commits as invalid requests a redraw. -/
theorem Drag_invalid_repaints (s : State) (p1 p2 : POINT) (hs : Idle s)
    (hf : DragFlag s p1 p2 = false) :
    s.Repaints < (ProgramLoop s (Drag p1 p2)).Repaints := by
  obtain ⟨hr, hd, hh⟩ := hs
  have hz : SizeTest p1 p1 = false := SizeTest_self p1
  by_cases h1 : s.G_SelectionEnd = p1 <;> by_cases h2 : p1 = p2 <;>
    cases hv : s.PCG_ATTEMPT_VSYNC <;> cases ht : s.TrackingMouse <;>
    cases hf2 : SizeTest p1 p2 <;> cases hg : s.G_SelectionIsValid <;>
    simp_all [Drag, ProgramLoop, PcgCamUtilityProcedure, UpdateSelection_eq,
      ShowResult, Repaint, DragFlag] <;> omega

/-- A drag shorter than `MinSize` in some axis, started with the flag down, commits
with the flag down. -/
theorem DragFlag_small (s : State) (p1 p2 : POINT) (hflag : s.G_SelectionIsValid = false)
    (hsmall : |p1.x - p2.x| < 32 ∨ |p1.y - p2.y| < 32) : DragFlag s p1 p2 = false := by
  unfold DragFlag
  split
  · exact hflag
  · cases h : SizeTest p1 p2
    · rfl
    · exfalso
      simp only [SizeTest, Bool.and_eq_true, decide_eq_true_eq, MinSize] at h
      unfold wrapI32 at h
      rcases hsmall with hx | hy
      · rw [abs_lt] at hx; omega
      · rw [abs_lt] at hy; omega

theorem InitialState_EndAtOrigin (e : Startup) : EndAtOrigin (InitialState e) := by
  intro _ _
  unfold InitialState UpdateMonitorStats ToggleWindowFullScreen ZeroState
  cases e.GetWindowPlacement <;> cases e.FullScreenInfo <;> cases e.StatsInfo <;> rfl

/-- In every state the program loop reaches from program start without handling a stale
pointer-down, `G_SelectionIsValid` equals the selection test of `UpdateSelection` on the
stored corners. -/
theorem FlagAccurate_reachable (e : Startup) (msgs : List Msg)
    (hc : ∀ m ∈ msgs, StaleDown m = false) :
    FlagAccurate (ProgramLoop (InitialState e) msgs) :=
  ProgramLoop_FlagAccurate _ msgs (InitialState_Quiet e) (InitialState_EndAtOrigin e)
    (InitialState_FlagAccurate e) hc

/-- The same when every pointer-down is handled with the cursor at rest. -/
theorem FlagAccurate_of_cursor_at_rest (e : Startup) (msgs : List Msg)
    (hrest : ∀ m ∈ msgs, CursorAtRest m = true) :
    FlagAccurate (ProgramLoop (InitialState e) msgs) :=
  FlagAccurate_reachable e msgs (fun m hm => CursorAtRest_not_stale m (hrest m hm))

/-- In every idle state the program loop reaches from program start the validity flag is
down. -/
theorem Reachable_idle_flag_down (e : Startup) (msgs : List Msg)
    (hs : Idle (ProgramLoop (InitialState e) msgs)) :
    (ProgramLoop (InitialState e) msgs).G_SelectionIsValid = false :=
  (Reachable_Quiet e msgs hs.1).2.2 hs.2.1

/-! ## Claims -/

/-- C1, as stated, fails: on the 1920x1080 desktop the drag from (1820,980) to (100,100)
spans at least 32 pixels in both axes, yet it commits with `G_SelectionIsValid = false`
and no result is shown. -/
theorem C1_reversed_drag_commits_invalid :
    Idle (InitialState Desktop)
    ∧ |(1820 : Int) - 100| ≥ 32 ∧ |(980 : Int) - 100| ≥ 32
    ∧ (ProgramLoop (InitialState Desktop) (Drag ⟨1820, 980⟩ ⟨100, 100⟩)).G_SelectionIsValid
        = false
    ∧ (ProgramLoop (InitialState Desktop) (Drag ⟨1820, 980⟩ ⟨100, 100⟩)).Shown = [] := by
  decide

/-- C1, amended: for points `p1`, `p2` at least 32 pixels apart in both axes (the
coordinate differences being representable in `i32`), the drag from `p1` to `p2` out of
an idle state commits with `G_SelectionIsValid = true` exactly when `p1` is the top-left
corner and `p2` the bottom-right one. -/
theorem C1_drag_valid_iff_start_top_left (s : State) (p1 p2 : POINT) (hs : Idle s)
    (hx : |p1.x - p2.x| ≥ 32) (hy : |p1.y - p2.y| ≥ 32)
    (hox : InI32 (p2.x - p1.x)) (hoy : InI32 (p2.y - p1.y)) :
    (ProgramLoop s (Drag p1 p2)).G_SelectionIsValid = true ↔ (p1.x < p2.x ∧ p1.y < p2.y) := by
  have hne : p1 ≠ p2 := by
    intro h
    subst h
    simp at hx
  rw [(Drag_outcome s p1 p2 hs).1, DragFlag_of_ne s p1 p2 hne, SizeTest_iff p1 p2 hox hoy]
  rw [ge_iff_le, le_abs] at hx hy
  omega

/-- C1, amended, at the drag (100,100) -> (1820,980) on the 1920x1080 desktop. -/
theorem C1_drag_valid_iff_start_top_left_witness :
    Idle (InitialState Desktop)
    ∧ |(100 : Int) - 1820| ≥ 32 ∧ |(100 : Int) - 980| ≥ 32
    ∧ ((ProgramLoop (InitialState Desktop) (Drag ⟨100, 100⟩ ⟨1820, 980⟩)).G_SelectionIsValid
        = true ↔ ((100 : Int) < 1820 ∧ (100 : Int) < 980)) :=
  ⟨by decide, by decide, by decide,
    C1_drag_valid_iff_start_top_left (InitialState Desktop) ⟨100, 100⟩ ⟨1820, 980⟩
      (by decide) (by decide) (by decide) (by decide) (by decide)⟩

/-- C2: for every work area stored in an idle state and every drag from `p1` to `p2`
that commits as valid (all `i32` operations being free of overflow), the message box
receives `Left = min p1.x p2.x`, `Top = min p1.y p2.y`, `Right = W - max p1.x p2.x`
and `Bottom = H - max p1.y p2.y`. -/
theorem C2_valid_drag_edge_distances (s : State) (p1 p2 : POINT) (hs : Idle s)
    (hox : InI32 (p2.x - p1.x)) (hoy : InI32 (p2.y - p1.y))
    (hW : InI32 s.G_WorkAreaW) (hH : InI32 s.G_WorkAreaH)
    (hR : InI32 (s.G_WorkAreaW - p2.x)) (hB : InI32 (s.G_WorkAreaH - p2.y))
    (hv : (ProgramLoop s (Drag p1 p2)).G_SelectionIsValid = true) :
    (ProgramLoop s (Drag p1 p2)).Shown =
      s.Shown ++ [{ Left := min p1.x p2.x, Top := min p1.y p2.y,
                    Right := s.G_WorkAreaW - max p1.x p2.x,
                    Bottom := s.G_WorkAreaH - max p1.y p2.y }] := by
  have ho := Drag_outcome s p1 p2 hs
  rw [ho.1] at hv
  have hc := DragFlag_corners s p1 p2 hox hoy hv
  rw [ho.2.1, hv, castI32_of_InI32 hW, castI32_of_InI32 hH, wrapI32_of_InI32 hR,
    wrapI32_of_InI32 hB, min_eq_left hc.1, min_eq_left hc.2, max_eq_right hc.1,
    max_eq_right hc.2]
  rfl

/-- C2 at the scenario of the specification: work area 1920x1080, drag from (100,100)
to (1820,980), result 100, 100, 100, 100. -/
theorem C2_valid_drag_edge_distances_witness :
    Idle (InitialState Desktop)
    ∧ (InitialState Desktop).G_WorkAreaW = 1920 ∧ (InitialState Desktop).G_WorkAreaH = 1080
    ∧ (ProgramLoop (InitialState Desktop) (Drag ⟨100, 100⟩ ⟨1820, 980⟩)).G_SelectionIsValid
        = true
    ∧ (ProgramLoop (InitialState Desktop) (Drag ⟨100, 100⟩ ⟨1820, 980⟩)).Shown
        = [{ Left := 100, Top := 100, Right := 100, Bottom := 100 }] :=
  ⟨by decide, by decide, by decide, by decide,
    (C2_valid_drag_edge_distances (InitialState Desktop) ⟨100, 100⟩ ⟨1820, 980⟩
      (by decide) (by decide) (by decide) (by decide) (by decide) (by decide) (by decide)
      (by decide)).trans (by decide)⟩

/-- C3, as stated, fails: on the 1920x1080 desktop the drag (100,100) -> (1820,980)
commits as valid and shows 100, 100, 100, 100, while the reversed drag
(1820,980) -> (100,100) commits as invalid and shows nothing. -/
theorem C3_reversed_drag_outcome_differs :
    Outcome (InitialState Desktop) ⟨100, 100⟩ ⟨1820, 980⟩
        = (true, [{ Left := 100, Top := 100, Right := 100, Bottom := 100 }])
    ∧ Outcome (InitialState Desktop) ⟨1820, 980⟩ ⟨100, 100⟩ = (false, [])
    ∧ Outcome (InitialState Desktop) ⟨100, 100⟩ ⟨1820, 980⟩
        ≠ Outcome (InitialState Desktop) ⟨1820, 980⟩ ⟨100, 100⟩ := by
  decide

/-- C3, amended: for every idle state (hence every work area) and every two distinct
points, the drag from `p1` to `p2` and the reversed drag never both commit as valid, and
their outcomes (validity flag at commit, message boxes shown) are identical exactly when
both commit as invalid. -/
theorem C3_drag_and_reverse (s : State) (p1 p2 : POINT) (hs : Idle s) (hne : p1 ≠ p2) :
    ¬ ((ProgramLoop s (Drag p1 p2)).G_SelectionIsValid = true
        ∧ (ProgramLoop s (Drag p2 p1)).G_SelectionIsValid = true)
    ∧ (Outcome s p1 p2 = Outcome s p2 p1 ↔
        ((ProgramLoop s (Drag p1 p2)).G_SelectionIsValid = false
          ∧ (ProgramLoop s (Drag p2 p1)).G_SelectionIsValid = false)) := by
  have ha := Drag_outcome s p1 p2 hs
  have hb := Drag_outcome s p2 p1 hs
  have hrev := SizeTest_reverse p1 p2
  unfold Outcome
  rw [ha.1, hb.1, ha.2.1, hb.2.1, DragFlag_of_ne s p1 p2 hne,
    DragFlag_of_ne s p2 p1 (Ne.symm hne)]
  cases h12 : SizeTest p1 p2 <;> cases h21 : SizeTest p2 p1 <;> simp_all

/-- C3, amended, at the two drags of the specification scenario. -/
theorem C3_drag_and_reverse_witness :
    Idle (InitialState Desktop)
    ∧ (⟨100, 100⟩ : POINT) ≠ ⟨1820, 980⟩
    ∧ ¬ ((ProgramLoop (InitialState Desktop) (Drag ⟨100, 100⟩ ⟨1820, 980⟩)).G_SelectionIsValid
          = true
        ∧ (ProgramLoop (InitialState Desktop) (Drag ⟨1820, 980⟩ ⟨100, 100⟩)).G_SelectionIsValid
          = true) :=
  ⟨by decide, by decide,
    (C3_drag_and_reverse (InitialState Desktop) ⟨100, 100⟩ ⟨1820, 980⟩
      (by decide) (by decide)).1⟩

/-- C4: for every work area stored in an idle state and every drag that commits as
valid (all `i32` operations being free of overflow), the box shown satisfies
`Left + Right + (max.x - min.x) = W` and `Top + Bottom + (max.y - min.y) = H`. -/
theorem C4_distances_sum_to_work_area (s : State) (p1 p2 : POINT) (hs : Idle s)
    (hox : InI32 (p2.x - p1.x)) (hoy : InI32 (p2.y - p1.y))
    (hW : InI32 s.G_WorkAreaW) (hH : InI32 s.G_WorkAreaH)
    (hR : InI32 (s.G_WorkAreaW - p2.x)) (hB : InI32 (s.G_WorkAreaH - p2.y))
    (hv : (ProgramLoop s (Drag p1 p2)).G_SelectionIsValid = true) :
    ∃ r : ResultBox, (ProgramLoop s (Drag p1 p2)).Shown = s.Shown ++ [r]
      ∧ r.Left + r.Right + (max p1.x p2.x - min p1.x p2.x) = s.G_WorkAreaW
      ∧ r.Top + r.Bottom + (max p1.y p2.y - min p1.y p2.y) = s.G_WorkAreaH := by
  have ho := Drag_outcome s p1 p2 hs
  rw [ho.1] at hv
  have hc := DragFlag_corners s p1 p2 hox hoy hv
  refine ⟨_, by rw [ho.2.1, hv]; rfl, ?_, ?_⟩
  · simp only [castI32_of_InI32 hW, wrapI32_of_InI32 hR, min_eq_left hc.1, max_eq_right hc.1]
    ring
  · simp only [castI32_of_InI32 hH, wrapI32_of_InI32 hB, min_eq_left hc.2, max_eq_right hc.2]
    ring

/-- C4 at the drag (300,200) -> (900,700) on the 1920x1080 desktop. -/
theorem C4_distances_sum_to_work_area_witness :
    Idle (InitialState Desktop)
    ∧ (ProgramLoop (InitialState Desktop) (Drag ⟨300, 200⟩ ⟨900, 700⟩)).G_SelectionIsValid
        = true
    ∧ ∃ r : ResultBox,
        (ProgramLoop (InitialState Desktop) (Drag ⟨300, 200⟩ ⟨900, 700⟩)).Shown
          = (InitialState Desktop).Shown ++ [r]
        ∧ r.Left + r.Right + (max (300 : Int) 900 - min (300 : Int) 900)
            = (InitialState Desktop).G_WorkAreaW
        ∧ r.Top + r.Bottom + (max (200 : Int) 700 - min (200 : Int) 700)
            = (InitialState Desktop).G_WorkAreaH :=
  ⟨by decide, by decide,
    C4_distances_sum_to_work_area (InitialState Desktop) ⟨300, 200⟩ ⟨900, 700⟩
      (by decide) (by decide) (by decide) (by decide) (by decide) (by decide) (by decide)
      (by decide)⟩

/-- C5: in every idle state whose validity flag is down (as it is in every idle state
the program loop reaches from program start), whatever corners are stored, and for every
two points closer than 32 pixels in some axis, the drag from `p1` to `p2` is in progress
with corners `p1`, `p2` before the pointer-up, and the pointer-up commits it with the
validity flag down: no message box is added, the program keeps running, a redraw is
requested, and the state is idle again with both stored corners reset to (0,0). -/
theorem C5_small_drag_resets (s : State) (p1 p2 : POINT) (hs : Idle s)
    (hflag : s.G_SelectionIsValid = false)
    (hsmall : |p1.x - p2.x| < 32 ∨ |p1.y - p2.y| < 32) :
    (Dragging (ProgramLoop s [.WM_LBUTTONDOWN p1 p1, .WM_MOUSEMOVE p2])
      ∧ (ProgramLoop s [.WM_LBUTTONDOWN p1 p1, .WM_MOUSEMOVE p2]).G_SelectionStart = p1
      ∧ (ProgramLoop s [.WM_LBUTTONDOWN p1 p1, .WM_MOUSEMOVE p2]).G_SelectionEnd = p2
      ∧ (ProgramLoop s [.WM_LBUTTONDOWN p1 p1, .WM_MOUSEMOVE p2]).G_SelectionIsValid = false)
    ∧ ProgramLoop s (Drag p1 p2)
        = PcgCamUtilityProcedure (ProgramLoop s [.WM_LBUTTONDOWN p1 p1, .WM_MOUSEMOVE p2])
            (.WM_LBUTTONUP p2)
    ∧ (ProgramLoop s (Drag p1 p2)).G_SelectionIsValid = false
    ∧ (ProgramLoop s (Drag p1 p2)).Shown = s.Shown
    ∧ Idle (ProgramLoop s (Drag p1 p2))
    ∧ (ProgramLoop s (Drag p1 p2)).G_SelectionStart = { x := 0, y := 0 }
    ∧ (ProgramLoop s (Drag p1 p2)).G_SelectionEnd = { x := 0, y := 0 }
    ∧ s.Repaints < (ProgramLoop s (Drag p1 p2)).Repaints := by
  have hf := DragFlag_small s p1 p2 hflag hsmall
  obtain ⟨m1, m2, m3, m4, m5, _, m7⟩ := Drag_progress s p1 p2 hs
  obtain ⟨o1, o2, o3, o4, o5, o6, o7, _, _⟩ := Drag_outcome s p1 p2 hs
  rw [hf] at m5 o1 o2 o3 o5 o6 o7
  exact ⟨⟨⟨m1, m2⟩, m3, m4, m5⟩, m7, o1, by simpa using o2,
    ⟨by simpa using o3, o4, o5⟩, by simpa using o6, by simpa using o7,
    Drag_invalid_repaints s p1 p2 hs hf⟩

/-- C5 at the drag (0,0) -> (10,10) of the specification scenario, started in an idle
state of the 1920x1080 desktop that stores the corners (300,200) and (305,900) with the
validity flag down: the end corner is (10,10) before the pointer-up and (0,0) after. -/
theorem C5_small_drag_resets_witness :
    Idle { InitialState Desktop with
            G_SelectionStart := ⟨300, 200⟩, G_SelectionEnd := ⟨305, 900⟩ }
    ∧ (|(0 : Int) - 10| < 32 ∨ |(0 : Int) - 10| < 32)
    ∧ (ProgramLoop
        { InitialState Desktop with
            G_SelectionStart := ⟨300, 200⟩, G_SelectionEnd := ⟨305, 900⟩ }
        [.WM_LBUTTONDOWN ⟨0, 0⟩ ⟨0, 0⟩, .WM_MOUSEMOVE ⟨10, 10⟩]).G_SelectionEnd = ⟨10, 10⟩
    ∧ (ProgramLoop
        { InitialState Desktop with
            G_SelectionStart := ⟨300, 200⟩, G_SelectionEnd := ⟨305, 900⟩ }
        (Drag ⟨0, 0⟩ ⟨10, 10⟩)).G_SelectionEnd = { x := 0, y := 0 } :=
  ⟨by decide, by decide,
    (C5_small_drag_resets
      { InitialState Desktop with
          G_SelectionStart := ⟨300, 200⟩, G_SelectionEnd := ⟨305, 900⟩ }
      ⟨0, 0⟩ ⟨10, 10⟩ (by decide) (by decide) (by decide)).1.2.2.1,
    (C5_small_drag_resets
      { InitialState Desktop with
          G_SelectionStart := ⟨300, 200⟩, G_SelectionEnd := ⟨305, 900⟩ }
      ⟨0, 0⟩ ⟨10, 10⟩ (by decide) (by decide) (by decide)).2.2.2.2.2.2.1⟩

/-- C6, as stated, fails: with a drag in progress on the 1920x1080 desktop, the
`WM_MOUSELEAVE` for a cursor that moved to a 1280x1024 monitor overwrites the stored
work area, and the drag is still in progress afterwards. -/
theorem C6_refresh_during_drag_changes_work_area :
    Dragging MidDrag
    ∧ MidDrag.G_WorkAreaW = 1920 ∧ MidDrag.G_WorkAreaH = 1080
    ∧ Dragging (PcgCamUtilityProcedure MidDrag LeaveToMonitor2)
    ∧ (PcgCamUtilityProcedure MidDrag LeaveToMonitor2).G_WorkAreaW = 1280
    ∧ (PcgCamUtilityProcedure MidDrag LeaveToMonitor2).G_WorkAreaH = 1024 := by
  decide

/-- C6, amended: in every state with a drag in progress, handling `WM_MOUSELEAVE`
leaves the stored work area unchanged when the cursor is on the recorded monitor or one
of the two monitor-info queries fails; when the cursor is on another monitor and both
queries succeed, the work area is overwritten with the size of the work area reported
for the monitor of the window. -/
theorem C6_refresh_during_drag (s : State) (Monitor WindowMonitor : Nat)
    (Info StatsInfo : Option RECT) (hd : Dragging s) :
    Dragging (PcgCamUtilityProcedure s (.WM_MOUSELEAVE Monitor Info WindowMonitor StatsInfo))
    ∧ ((s.G_WindowMonitor = Monitor ∨ Info = none ∨ StatsInfo = none) →
        (PcgCamUtilityProcedure s
            (.WM_MOUSELEAVE Monitor Info WindowMonitor StatsInfo)).G_WorkAreaW = s.G_WorkAreaW
        ∧ (PcgCamUtilityProcedure s
            (.WM_MOUSELEAVE Monitor Info WindowMonitor StatsInfo)).G_WorkAreaH = s.G_WorkAreaH)
    ∧ (∀ rc rcWork : RECT, s.G_WindowMonitor ≠ Monitor → Info = some rc →
        StatsInfo = some rcWork →
        (PcgCamUtilityProcedure s
            (.WM_MOUSELEAVE Monitor Info WindowMonitor StatsInfo)).G_WorkAreaW
          = castR32 (wrapI32 (rcWork.right - rcWork.left))
        ∧ (PcgCamUtilityProcedure s
            (.WM_MOUSELEAVE Monitor Info WindowMonitor StatsInfo)).G_WorkAreaH
          = castR32 (wrapI32 (rcWork.bottom - rcWork.top))) := by
  have hf := UpdateWindowPosition_frame s Monitor Info WindowMonitor StatsInfo
  refine ⟨?_, ?_, ?_⟩
  · exact ⟨by simpa [PcgCamUtilityProcedure, hf.1] using hd.1,
      by simpa [PcgCamUtilityProcedure, hf.2.2.2.1] using hd.2⟩
  · intro h
    simp only [PcgCamUtilityProcedure, UpdateWindowPosition, UpdateMonitorStats]
    by_cases hm : s.G_WindowMonitor = Monitor <;> cases Info <;> cases StatsInfo <;>
      simp_all
  · intro rc rcWork hm h1 h2
    subst h1 h2
    simp [PcgCamUtilityProcedure, UpdateWindowPosition, UpdateMonitorStats, hm]

/-- C6, amended, at the drag on the 1920x1080 desktop whose cursor is reported on the
recorded monitor: the drag goes on and the work area stays 1920x1080. -/
theorem C6_refresh_during_drag_witness :
    Dragging MidDrag
    ∧ Dragging (PcgCamUtilityProcedure MidDrag
        (.WM_MOUSELEAVE 1 (some ⟨0, 0, 1920, 1080⟩) 1 (some ⟨0, 0, 1920, 1080⟩)))
    ∧ (PcgCamUtilityProcedure MidDrag
        (.WM_MOUSELEAVE 1 (some ⟨0, 0, 1920, 1080⟩) 1
          (some ⟨0, 0, 1920, 1080⟩))).G_WorkAreaW = MidDrag.G_WorkAreaW :=
  ⟨by decide,
    (C6_refresh_during_drag MidDrag 1 1 (some ⟨0, 0, 1920, 1080⟩) (some ⟨0, 0, 1920, 1080⟩)
      (by decide)).1,
    ((C6_refresh_during_drag MidDrag 1 1 (some ⟨0, 0, 1920, 1080⟩)
      (some ⟨0, 0, 1920, 1080⟩) (by decide)).2.1 (Or.inl (by decide))).1⟩

/-- C7: whenever the program is running (idle or mid-drag) after the messages `pre`, a
cancellation event (Escape key transition, Alt+F4, right-button-up, window close) only
lowers `G_Running`; whatever messages follow, none is handled: `WinMain` returns exit
code 0 with the selection state as it was before the cancellation and no message box
shown. -/
theorem C7_cancel_is_terminal (e : Startup) (pre later : List Msg) (m : Msg)
    (hreg : e.RegisterClassA = true) (hwin : e.CreateWindowExA = true)
    (hrun : (ProgramLoop (InitialState e) pre).G_Running = true)
    (hc : IsCancel m = true) :
    WinMain e (pre ++ m :: later)
        = (0, { ProgramLoop (InitialState e) pre with G_Running := false })
    ∧ (WinMain e (pre ++ m :: later)).2.G_Running = false
    ∧ (WinMain e (pre ++ m :: later)).2.Shown = []
    ∧ (WinMain e (pre ++ m :: later)).2.G_IsDrawingSelection
        = (ProgramLoop (InitialState e) pre).G_IsDrawingSelection
    ∧ (WinMain e (pre ++ m :: later)).2.G_SelectionStart
        = (ProgramLoop (InitialState e) pre).G_SelectionStart
    ∧ (WinMain e (pre ++ m :: later)).2.G_SelectionEnd
        = (ProgramLoop (InitialState e) pre).G_SelectionEnd
    ∧ (WinMain e (pre ++ m :: later)).2.G_SelectionIsValid
        = (ProgramLoop (InitialState e) pre).G_SelectionIsValid := by
  have hq := (Reachable_Quiet e pre hrun).1
  have hmain : WinMain e (pre ++ m :: later)
      = (0, { ProgramLoop (InitialState e) pre with G_Running := false }) := by
    simp only [WinMain, hreg, hwin, Bool.not_true, Bool.false_eq_true, if_false]
    rw [ProgramLoop_append, ProgramLoop_cons _ m later hrun (IsCancel_ne_quit m hc),
      Procedure_cancel _ m hc, ProgramLoop_stopped _ _ rfl]
  rw [hmain]
  exact ⟨rfl, rfl, hq, rfl, rfl, rfl, rfl⟩

/-- C7 at the scenario of the specification: Escape pressed mid-drag, followed by a
pointer-up that would otherwise have committed a valid selection. -/
theorem C7_cancel_is_terminal_witness :
    Dragging (ProgramLoop (InitialState Desktop)
      [.WM_LBUTTONDOWN ⟨100, 100⟩ ⟨100, 100⟩, .WM_MOUSEMOVE ⟨1820, 980⟩])
    ∧ IsCancel (.WM_KEY VK_ESCAPE 0) = true
    ∧ (WinMain Desktop
        ([.WM_LBUTTONDOWN ⟨100, 100⟩ ⟨100, 100⟩, .WM_MOUSEMOVE ⟨1820, 980⟩]
          ++ .WM_KEY VK_ESCAPE 0 :: [.WM_LBUTTONUP ⟨1820, 980⟩])).1 = 0
    ∧ (WinMain Desktop
        ([.WM_LBUTTONDOWN ⟨100, 100⟩ ⟨100, 100⟩, .WM_MOUSEMOVE ⟨1820, 980⟩]
          ++ .WM_KEY VK_ESCAPE 0 :: [.WM_LBUTTONUP ⟨1820, 980⟩])).2.Shown = [] :=
  ⟨by decide, by decide,
    congrArg Prod.fst
      (C7_cancel_is_terminal Desktop
        [.WM_LBUTTONDOWN ⟨100, 100⟩ ⟨100, 100⟩, .WM_MOUSEMOVE ⟨1820, 980⟩]
        [.WM_LBUTTONUP ⟨1820, 980⟩] (.WM_KEY VK_ESCAPE 0)
        (by decide) (by decide) (by decide) (by decide)).1,
    (C7_cancel_is_terminal Desktop
        [.WM_LBUTTONDOWN ⟨100, 100⟩ ⟨100, 100⟩, .WM_MOUSEMOVE ⟨1820, 980⟩]
        [.WM_LBUTTONUP ⟨1820, 980⟩] (.WM_KEY VK_ESCAPE 0)
        (by decide) (by decide) (by decide) (by decide)).2.2.1⟩

/-- C8: when `GetMonitorInfoA` fails, `UpdateMonitorStats` and `UpdateWindowPosition`
leave `G_WorkAreaW`, `G_WorkAreaH` and `G_Running` as they were, in every state; for
`UpdateWindowPosition` this holds both when its own query fails and when the query of the
nested `UpdateMonitorStats` fails. -/
theorem C8_failed_monitor_query_keeps_work_area (s : State) (Monitor WindowMonitor : Nat)
    (Info StatsInfo : Option RECT) :
    ((UpdateMonitorStats s WindowMonitor none).G_WorkAreaW = s.G_WorkAreaW
      ∧ (UpdateMonitorStats s WindowMonitor none).G_WorkAreaH = s.G_WorkAreaH
      ∧ (UpdateMonitorStats s WindowMonitor none).G_Running = s.G_Running)
    ∧ ((UpdateWindowPosition s Monitor none WindowMonitor StatsInfo).G_WorkAreaW
          = s.G_WorkAreaW
      ∧ (UpdateWindowPosition s Monitor none WindowMonitor StatsInfo).G_WorkAreaH
          = s.G_WorkAreaH
      ∧ (UpdateWindowPosition s Monitor none WindowMonitor StatsInfo).G_Running
          = s.G_Running)
    ∧ ((UpdateWindowPosition s Monitor Info WindowMonitor none).G_WorkAreaW = s.G_WorkAreaW
      ∧ (UpdateWindowPosition s Monitor Info WindowMonitor none).G_WorkAreaH
          = s.G_WorkAreaH
      ∧ (UpdateWindowPosition s Monitor Info WindowMonitor none).G_Running
          = s.G_Running) := by
  refine ⟨by simp [UpdateMonitorStats], ?_, ?_⟩
  · by_cases hm : s.G_WindowMonitor = Monitor <;> simp [UpdateWindowPosition, hm]
  · by_cases hm : s.G_WindowMonitor = Monitor <;> cases Info <;>
      simp [UpdateWindowPosition, UpdateMonitorStats, hm]

/-- C9, as stated, fails: when the platform could not report monitor info at start-up
the stored work area is 0x0 and the valid drag (0,0) -> (100,100) shows Right = -100 and
Bottom = -100; and on the 1920x1080 desktop a valid drag released with the cursor at
(1950,1100) shows Right = -30 and Bottom = -20. -/
theorem C9_negative_edge_distances :
    (WinMain NoMonitorInfo (Drag ⟨0, 0⟩ ⟨100, 100⟩)).2.G_SelectionIsValid = true
    ∧ (WinMain NoMonitorInfo (Drag ⟨0, 0⟩ ⟨100, 100⟩)).2.Shown
        = [{ Left := 0, Top := 0, Right := -100, Bottom := -100 }]
    ∧ (WinMain Desktop (Drag ⟨1900, 1000⟩ ⟨1950, 1100⟩)).2.G_SelectionIsValid = true
    ∧ (WinMain Desktop (Drag ⟨1900, 1000⟩ ⟨1950, 1100⟩)).2.Shown
        = [{ Left := 1900, Top := 1000, Right := -30, Bottom := -20 }] := by
  decide

/-- C9, amended: for every work area stored in an idle state and every drag that
commits as valid (all `i32` operations being free of overflow), `Left` and `Top` are
non-negative exactly when the top-left corner has non-negative coordinates, and `Right`
and `Bottom` are non-negative exactly when the bottom-right corner does not exceed the
stored work area. -/
theorem C9_edge_distance_signs (s : State) (p1 p2 : POINT) (hs : Idle s)
    (hox : InI32 (p2.x - p1.x)) (hoy : InI32 (p2.y - p1.y))
    (hW : InI32 s.G_WorkAreaW) (hH : InI32 s.G_WorkAreaH)
    (hR : InI32 (s.G_WorkAreaW - p2.x)) (hB : InI32 (s.G_WorkAreaH - p2.y))
    (hv : (ProgramLoop s (Drag p1 p2)).G_SelectionIsValid = true) :
    ∃ r : ResultBox, (ProgramLoop s (Drag p1 p2)).Shown = s.Shown ++ [r]
      ∧ (0 ≤ r.Left ↔ 0 ≤ min p1.x p2.x)
      ∧ (0 ≤ r.Top ↔ 0 ≤ min p1.y p2.y)
      ∧ (0 ≤ r.Right ↔ max p1.x p2.x ≤ s.G_WorkAreaW)
      ∧ (0 ≤ r.Bottom ↔ max p1.y p2.y ≤ s.G_WorkAreaH) := by
  have ho := Drag_outcome s p1 p2 hs
  rw [ho.1] at hv
  have hc := DragFlag_corners s p1 p2 hox hoy hv
  refine ⟨_, by rw [ho.2.1, hv]; rfl, ?_, ?_, ?_, ?_⟩
  · simp only [min_eq_left hc.1]
  · simp only [min_eq_left hc.2]
  · simp only [castI32_of_InI32 hW, wrapI32_of_InI32 hR, max_eq_right hc.1]
    omega
  · simp only [castI32_of_InI32 hH, wrapI32_of_InI32 hB, max_eq_right hc.2]
    omega

/-- C9, amended, at the drag (100,100) -> (1820,980) on the 1920x1080 desktop, which
lies inside the work area. -/
theorem C9_edge_distance_signs_witness :
    Idle (InitialState Desktop)
    ∧ (ProgramLoop (InitialState Desktop) (Drag ⟨100, 100⟩ ⟨1820, 980⟩)).G_SelectionIsValid
        = true
    ∧ ∃ r : ResultBox,
        (ProgramLoop (InitialState Desktop) (Drag ⟨100, 100⟩ ⟨1820, 980⟩)).Shown
          = (InitialState Desktop).Shown ++ [r]
        ∧ (0 ≤ r.Left ↔ 0 ≤ min (100 : Int) 1820)
        ∧ (0 ≤ r.Top ↔ 0 ≤ min (100 : Int) 980)
        ∧ (0 ≤ r.Right ↔ max (100 : Int) 1820 ≤ (InitialState Desktop).G_WorkAreaW)
        ∧ (0 ≤ r.Bottom ↔ max (100 : Int) 980 ≤ (InitialState Desktop).G_WorkAreaH) :=
  ⟨by decide, by decide,
    C9_edge_distance_signs (InitialState Desktop) ⟨100, 100⟩ ⟨1820, 980⟩
      (by decide) (by decide) (by decide) (by decide) (by decide) (by decide) (by decide)
      (by decide)⟩

/-- C10: over every sequence of messages fed to the program loop from program start,
at most one message box is shown; one is shown exactly when some message of the sequence
is handled while the program is running and is a pointer-up that commits a valid
selection; and such a commit is terminal: it shows the box with Left, Top, Right,
Bottom of the selection, lowers `G_Running`, and no later message is handled. -/
theorem C10_result_shown_once (e : Startup) (msgs : List Msg) :
    (ProgramLoop (InitialState e) msgs).Shown.length ≤ 1
    ∧ ((ProgramLoop (InitialState e) msgs).Shown ≠ [] ↔
        ∃ pre m post, msgs = pre ++ m :: post
          ∧ (ProgramLoop (InitialState e) pre).G_Running = true
          ∧ CommitsValid (ProgramLoop (InitialState e) pre) m = true)
    ∧ (∀ pre m post, msgs = pre ++ m :: post →
        (ProgramLoop (InitialState e) pre).G_Running = true →
        CommitsValid (ProgramLoop (InitialState e) pre) m = true →
        ProgramLoop (InitialState e) msgs
            = PcgCamUtilityProcedure (ProgramLoop (InitialState e) pre) m
          ∧ (ProgramLoop (InitialState e) msgs).G_Running = false
          ∧ ∃ c, m = Msg.WM_LBUTTONUP c
              ∧ (ProgramLoop (InitialState e) msgs).Shown
                  = [CommitBox (ProgramLoop (InitialState e) pre) c]) := by
  have h0 : (InitialState e).Shown = [] := by
    unfold InitialState UpdateMonitorStats ToggleWindowFullScreen ZeroState
    cases e.GetWindowPlacement <;> cases e.FullScreenInfo <;> cases e.StatsInfo <;> rfl
  have hterm : ∀ pre m post, msgs = pre ++ m :: post →
      (ProgramLoop (InitialState e) pre).G_Running = true →
      CommitsValid (ProgramLoop (InitialState e) pre) m = true →
      ProgramLoop (InitialState e) msgs
          = PcgCamUtilityProcedure (ProgramLoop (InitialState e) pre) m
        ∧ (ProgramLoop (InitialState e) msgs).G_Running = false
        ∧ ∃ c, m = Msg.WM_LBUTTONUP c
            ∧ (ProgramLoop (InitialState e) msgs).Shown
                = [CommitBox (ProgramLoop (InitialState e) pre) c] := by
    intro pre m post hm hr hc
    obtain ⟨t1, t2, c, t3, t4⟩ := Commit_terminal _ m post hr hc
    have hl : ProgramLoop (InitialState e) msgs
        = PcgCamUtilityProcedure (ProgramLoop (InitialState e) pre) m := by
      rw [hm, ProgramLoop_append, t1]
    refine ⟨hl, by rw [hl]; exact t2, c, t3, ?_⟩
    rw [hl, t4, (Reachable_Quiet e pre hr).1]
    rfl
  refine ⟨?_, ⟨?_, ?_⟩, hterm⟩
  · rcases Loop_shown (InitialState e) msgs h0 with h | ⟨pre, m, post, e1, e2, e3, _⟩
    · rw [h]; exact Nat.zero_le 1
    · obtain ⟨_, _, c, _, hs⟩ := hterm pre m post e1 e2 e3
      rw [hs]; exact Nat.le_refl 1
  · intro hne
    rcases Loop_shown (InitialState e) msgs h0 with h | ⟨pre, m, post, e1, e2, e3, _⟩
    · exact absurd h hne
    · exact ⟨pre, m, post, e1, e2, e3⟩
  · rintro ⟨pre, m, post, e1, e2, e3⟩
    obtain ⟨_, _, c, _, hs⟩ := hterm pre m post e1 e2 e3
    rw [hs]
    exact List.cons_ne_nil _ _

/-- C10 at the drag (100,100) -> (1820,980) on the 1920x1080 desktop followed by a
second drag: exactly one box is shown, with the text listing Left, Top, Right, Bottom. -/
theorem C10_result_shown_once_witness :
    (ProgramLoop (InitialState Desktop)
        (Drag ⟨100, 100⟩ ⟨1820, 980⟩ ++ Drag ⟨200, 200⟩ ⟨900, 900⟩)).Shown.length ≤ 1
    ∧ (ProgramLoop (InitialState Desktop)
        (Drag ⟨100, 100⟩ ⟨1820, 980⟩ ++ Drag ⟨200, 200⟩ ⟨900, 900⟩)).Shown
        = [{ Left := 100, Top := 100, Right := 100, Bottom := 100 }]
    ∧ ResultMessage { Left := 100, Top := 100, Right := 100, Bottom := 100 }
        = "Left:\t  100\nTop:\t  100\nRight:\t  100\nBottom:\t  100                                          " :=
  ⟨(C10_result_shown_once Desktop
      (Drag ⟨100, 100⟩ ⟨1820, 980⟩ ++ Drag ⟨200, 200⟩ ⟨900, 900⟩)).1,
    by decide, by decide⟩

/-- C11: in every idle state a pointer-down with the cursor at `p` enters the dragging
state with both stored corners equal to `p`; in every state already dragging, a
pointer-down changes nothing at all, in particular neither the stored corners nor the
validity flag nor the drag flag. -/
theorem C11_pointer_down (s : State) (p : POINT) :
    (Idle s →
      Dragging (PcgCamUtilityProcedure s (.WM_LBUTTONDOWN p p))
      ∧ (PcgCamUtilityProcedure s (.WM_LBUTTONDOWN p p)).G_SelectionStart = p
      ∧ (PcgCamUtilityProcedure s (.WM_LBUTTONDOWN p p)).G_SelectionEnd = p)
    ∧ (Dragging s →
      PcgCamUtilityProcedure s (.WM_LBUTTONDOWN p p) = s
      ∧ (PcgCamUtilityProcedure s (.WM_LBUTTONDOWN p p)).G_SelectionStart
          = s.G_SelectionStart
      ∧ (PcgCamUtilityProcedure s (.WM_LBUTTONDOWN p p)).G_SelectionEnd = s.G_SelectionEnd
      ∧ (PcgCamUtilityProcedure s (.WM_LBUTTONDOWN p p)).G_SelectionIsValid
          = s.G_SelectionIsValid
      ∧ (PcgCamUtilityProcedure s (.WM_LBUTTONDOWN p p)).G_IsDrawingSelection = true) := by
  constructor
  · rintro ⟨hr, hd, _⟩
    have hf := UpdateSelection_frame
      { s with G_SelectionStart := p, G_IsDrawingSelection := true } p
    have he : PcgCamUtilityProcedure s (.WM_LBUTTONDOWN p p)
        = UpdateSelection { s with G_SelectionStart := p, G_IsDrawingSelection := true } p := by
      simp [PcgCamUtilityProcedure, hd]
    rw [he]
    exact ⟨⟨by rw [hf.1]; exact hr, by rw [hf.2.2.2.1]⟩, by rw [hf.2.2.2.2.1],
      hf.2.2.2.2.2.1⟩
  · rintro ⟨_, hd⟩
    have he : PcgCamUtilityProcedure s (.WM_LBUTTONDOWN p p) = s := by
      simp [PcgCamUtilityProcedure, hd]
    rw [he]
    exact ⟨rfl, rfl, rfl, rfl, hd⟩

/-- C11 right after program start on the 1920x1080 desktop (idle) with the cursor at
(100,100), and at a drag in progress with the cursor at (5,5). -/
theorem C11_pointer_down_witness :
    Idle (InitialState Desktop)
    ∧ Dragging (PcgCamUtilityProcedure (InitialState Desktop) (.WM_LBUTTONDOWN ⟨100, 100⟩ ⟨100, 100⟩))
    ∧ (PcgCamUtilityProcedure (InitialState Desktop)
        (.WM_LBUTTONDOWN ⟨100, 100⟩ ⟨100, 100⟩)).G_SelectionStart = ⟨100, 100⟩
    ∧ (PcgCamUtilityProcedure (InitialState Desktop)
        (.WM_LBUTTONDOWN ⟨100, 100⟩ ⟨100, 100⟩)).G_SelectionEnd = ⟨100, 100⟩
    ∧ Dragging MidDrag
    ∧ PcgCamUtilityProcedure MidDrag (.WM_LBUTTONDOWN ⟨5, 5⟩ ⟨5, 5⟩) = MidDrag :=
  ⟨by decide,
    ((C11_pointer_down (InitialState Desktop) ⟨100, 100⟩).1 (by decide)).1,
    ((C11_pointer_down (InitialState Desktop) ⟨100, 100⟩).1 (by decide)).2.1,
    ((C11_pointer_down (InitialState Desktop) ⟨100, 100⟩).1 (by decide)).2.2,
    by decide,
    ((C11_pointer_down MidDrag ⟨5, 5⟩).2 (by decide)).1⟩

/-- C12: in every dragging state a pointer-move with the cursor at `p` sets
`G_SelectionEnd` to `p` and leaves `G_SelectionStart` unchanged, and in the default mode
(`PCG_ATTEMPT_VSYNC` off) it requests exactly one redraw when `p` differs from the
previous `G_SelectionEnd` and none when it does not; a pointer-move outside a drag
changes neither corner and requests no redraw. -/
theorem C12_pointer_move (s : State) (p : POINT) :
    (Dragging s →
      (PcgCamUtilityProcedure s (.WM_MOUSEMOVE p)).G_SelectionEnd = p
      ∧ (PcgCamUtilityProcedure s (.WM_MOUSEMOVE p)).G_SelectionStart = s.G_SelectionStart
      ∧ (s.PCG_ATTEMPT_VSYNC = false →
          (PcgCamUtilityProcedure s (.WM_MOUSEMOVE p)).Repaints
              = s.Repaints + (if p = s.G_SelectionEnd then 0 else 1)
          ∧ (s.Repaints < (PcgCamUtilityProcedure s (.WM_MOUSEMOVE p)).Repaints
              ↔ p ≠ s.G_SelectionEnd)))
    ∧ (s.G_IsDrawingSelection = false →
      (PcgCamUtilityProcedure s (.WM_MOUSEMOVE p)).G_SelectionStart = s.G_SelectionStart
      ∧ (PcgCamUtilityProcedure s (.WM_MOUSEMOVE p)).G_SelectionEnd = s.G_SelectionEnd
      ∧ (PcgCamUtilityProcedure s (.WM_MOUSEMOVE p)).Repaints = s.Repaints) := by
  constructor
  · rintro ⟨_, hd⟩
    refine ⟨?_, ?_, ?_⟩
    · cases ht : s.TrackingMouse <;>
        simp [PcgCamUtilityProcedure, ht, hd, UpdateSelection_frame]
    · cases ht : s.TrackingMouse <;>
        simp [PcgCamUtilityProcedure, ht, hd, UpdateSelection_frame]
    · intro hv
      by_cases hp : p = s.G_SelectionEnd
      · have hp2 : s.G_SelectionEnd = p := hp.symm
        cases ht : s.TrackingMouse <;>
          simp [PcgCamUtilityProcedure, ht, hd, UpdateSelection_eq, hp2]
      · have hp2 : ¬ s.G_SelectionEnd = p := fun h => hp h.symm
        cases ht : s.TrackingMouse <;>
          simp [PcgCamUtilityProcedure, ht, hd, UpdateSelection_eq, hp, hp2, hv]
  · intro hd
    cases ht : s.TrackingMouse <;> simp [PcgCamUtilityProcedure, ht, hd]

/-- C12 at the drag in progress on the 1920x1080 desktop, whose moving corner is at
(1900,500): a move to (1901,500) stores the corner and requests one redraw; and a move
right after program start, outside a drag, changes neither corner. -/
theorem C12_pointer_move_witness :
    Dragging MidDrag
    ∧ MidDrag.PCG_ATTEMPT_VSYNC = false
    ∧ (PcgCamUtilityProcedure MidDrag (.WM_MOUSEMOVE ⟨1901, 500⟩)).G_SelectionEnd
        = ⟨1901, 500⟩
    ∧ (PcgCamUtilityProcedure MidDrag (.WM_MOUSEMOVE ⟨1901, 500⟩)).G_SelectionStart
        = MidDrag.G_SelectionStart
    ∧ (MidDrag.Repaints < (PcgCamUtilityProcedure MidDrag (.WM_MOUSEMOVE ⟨1901, 500⟩)).Repaints
        ↔ (⟨1901, 500⟩ : POINT) ≠ MidDrag.G_SelectionEnd)
    ∧ (InitialState Desktop).G_IsDrawingSelection = false
    ∧ (PcgCamUtilityProcedure (InitialState Desktop) (.WM_MOUSEMOVE ⟨7, 7⟩)).G_SelectionEnd
        = (InitialState Desktop).G_SelectionEnd :=
  ⟨by decide, by decide,
    ((C12_pointer_move MidDrag ⟨1901, 500⟩).1 (by decide)).1,
    ((C12_pointer_move MidDrag ⟨1901, 500⟩).1 (by decide)).2.1,
    (((C12_pointer_move MidDrag ⟨1901, 500⟩).1 (by decide)).2.2 (by decide)).2,
    by decide,
    ((C12_pointer_move (InitialState Desktop) ⟨7, 7⟩).2 (by decide)).2.1⟩

/-- C13 fails on the code at a pointer-down handled while the cursor moves: right
after program start on the 1920x1080 desktop the handler samples the cursor at (-40,-40)
and `UpdateSelection` samples it at (0,0).  The stored corners are then (-40,-40) and
(0,0), 40 pixels apart in both axes, and `G_SelectionIsValid` is still false: the end
corner did not change and the change of the start corner is not seen, so the flag was
not recomputed.  A pointer-up at (0,0) then commits the selection as invalid: no box is
shown and the program keeps running. -/
theorem C13_moving_cursor_leaves_flag_stale :
    (ProgramLoop (InitialState Desktop)
        [.WM_LBUTTONDOWN ⟨-40, -40⟩ ⟨0, 0⟩]).G_SelectionStart = ⟨-40, -40⟩
    ∧ (ProgramLoop (InitialState Desktop)
        [.WM_LBUTTONDOWN ⟨-40, -40⟩ ⟨0, 0⟩]).G_SelectionEnd = ⟨0, 0⟩
    ∧ (ProgramLoop (InitialState Desktop)
        [.WM_LBUTTONDOWN ⟨-40, -40⟩ ⟨0, 0⟩]).G_SelectionIsValid = false
    ∧ (0 : Int) - (-40) ≥ 32
    ∧ ¬ FlagAccurate (ProgramLoop (InitialState Desktop)
        [.WM_LBUTTONDOWN ⟨-40, -40⟩ ⟨0, 0⟩])
    ∧ (ProgramLoop (InitialState Desktop)
        [.WM_LBUTTONDOWN ⟨-40, -40⟩ ⟨0, 0⟩, .WM_LBUTTONUP ⟨0, 0⟩]).Shown = []
    ∧ (ProgramLoop (InitialState Desktop)
        [.WM_LBUTTONDOWN ⟨-40, -40⟩ ⟨0, 0⟩, .WM_LBUTTONUP ⟨0, 0⟩]).G_Running = true := by
  decide

end PcgCam
